import Mathlib

/-!
Shallow embedding of the Radiant Smart integration core
(custom_components/radiant_smart/api.py): the data-point value codec,
the classification of a device's data-point map into capability groups,
the inbound MQTT command router and the observer fan-out.

Python dicts are modelled as association lists in insertion order with
distinct keys; numeric Python values as rationals; code that can raise is
modelled with Except.
-/

namespace RadiantSmart

/-- String suffix test, `str.endswith` (List-based so the kernel evaluates it). -/
def pyEndsWith (s suf : String) : Bool := suf.data.isSuffixOf s.data

/-- String prefix test, `str.startswith`. -/
def pyStartsWith (s pre : String) : Bool := pre.data.isPrefixOf s.data

/-- `str.title()` on ASCII text: the first letter of every alphabetic run is
upper-cased, the rest lower-cased; non-letters pass through. -/
def pyTitleAux : List Char → Bool → List Char
  | [], _ => []
  | c :: cs, prevAlpha =>
    if c.isAlpha then
      (if prevAlpha then c.toLower else c.toUpper) :: pyTitleAux cs true
    else
      c :: pyTitleAux cs false

def pyTitle (s : String) : String := ⟨pyTitleAux s.data false⟩

/-- Python `int()` on a number: truncation toward zero. -/
def truncQ (q : ℚ) : ℤ := if 0 ≤ q then ⌊q⌋ else ⌈q⌉

/-- `SmartDeviceDataPoint` (api.py:819-835): one vendor telemetry/control
value. The value is modelled as a rational (the numeric case; the codec's
non-numeric cases are identities). -/
structure SmartDeviceDataPoint where
  index : ℤ
  name : String
  pointType : ℤ
  value : ℚ
deriving DecidableEq, Repr

instance : Inhabited SmartDeviceDataPoint := ⟨⟨0, "", 0, 0⟩⟩

/-- `SmartDeviceDataPoint.get_value` (api.py:852-864): decode the stored wire
value per pointType. -/
def get_value (pointType : ℤ) (value : ℚ) : ℚ :=
  match pointType with
  | 1 => (truncQ value : ℚ)        -- int, enum or bool
  | 2 => value / 10                 -- float *10
  | 7 => (truncQ value : ℚ)        -- possibly constant value
  | 8 => value
  | _ => value

/-- `SmartDeviceDataPoint.set_value` (api.py:866-879): the wire value stored
for a display value, per pointType (the subsequent MQTT publish is out of
this model). Case 2 is Python `int(value * 10)`: truncation toward zero. -/
def set_value (pointType : ℤ) (value : ℚ) : ℚ :=
  match pointType with
  | 1 => (truncQ value : ℚ)
  | 2 => (truncQ (value * 10) : ℚ)
  | 7 => (truncQ value : ℚ)
  | 8 => value
  | _ => value

/-- A device's `data_points` dict: canonical key → data point, in insertion
order, keys distinct. -/
abbrev DPMap := List (String × SmartDeviceDataPoint)

/-- Keys of the map, in order. -/
def keysOf (m : DPMap) : List String := m.map Prod.fst

/-- `dict.get(k)`. -/
def getDP (m : DPMap) (k : String) : Option SmartDeviceDataPoint :=
  match m with
  | [] => none
  | p :: rest => if p.1 == k then some p.2 else getDP rest k

/-- `k in dict`. -/
def containsKey (m : DPMap) (k : String) : Bool :=
  match m with
  | [] => false
  | p :: rest => p.1 == k || containsKey rest k

/-- Removal of a key (the map side of `dict.pop`; keys are distinct, so
removing every occurrence matches removing the dict entry). -/
def eraseKey : DPMap → String → DPMap
  | [], _ => []
  | p :: rest, k => if p.1 == k then eraseKey rest k else p :: eraseKey rest k

/-- `dict.pop(k)` under a guard that k is present: the value (a default that
is never reached when the callers' presence guards hold) and the shrunk map. -/
def popD (m : DPMap) (k : String) : SmartDeviceDataPoint × DPMap :=
  ((getDP m k).getD default, eraseKey m k)

/-- `WaterHeaterData` (api.py:968-990). HA unit enums are rendered as strings. -/
structure WaterHeaterData where
  name : String
  icon : Option String
  min_temp : SmartDeviceDataPoint
  max_temp : SmartDeviceDataPoint
  current_temp : SmartDeviceDataPoint
  target_temp : SmartDeviceDataPoint
  target_temp_step : ℚ
  temp_unit : String
deriving DecidableEq, Repr

/-- `ClimateData` (api.py:993-1019). -/
structure ClimateData where
  name : String
  icon : Option String
  min_temp : Option SmartDeviceDataPoint
  max_temp : Option SmartDeviceDataPoint
  current_temp : SmartDeviceDataPoint
  target_temp : SmartDeviceDataPoint
  target_temp_step : ℚ
  temp_unit : String
  hvac_mode : SmartDeviceDataPoint
  hvac_modes : List (ℤ × String)
deriving DecidableEq, Repr

/-- `SensorData` (api.py:882-904); also used for binary sensors, as in the
source. Device/state classes and categories are rendered as strings. -/
structure SensorData where
  data_point : SmartDeviceDataPoint
  name : String
  device_class : Option String
  state_class : Option String
  icon : Option String
  unit_of_measurement : Option String
  options : Option (List (ℤ × String))
  entity_category : Option String
deriving DecidableEq, Repr

/-- `SwitchData` (api.py:907-921). -/
structure SwitchData where
  data_point : SmartDeviceDataPoint
  name : String
  device_class : Option String
  icon : Option String
deriving DecidableEq, Repr

/-- `NumberData` (api.py:924-948). -/
structure NumberData where
  data_point : SmartDeviceDataPoint
  name : String
  device_class : Option String
  mode : String
  icon : Option String
  min_value : Option ℚ
  max_value : Option ℚ
  step_value : Option ℚ
  unit_of_measurement : Option String
deriving DecidableEq, Repr

/-- `SelectData` (api.py:951-965). -/
structure SelectData where
  data_point : SmartDeviceDataPoint
  name : String
  options : List (ℤ × String)
  icon : Option String
deriving DecidableEq, Repr

/-- The 5 "Heating" water-heater keys (api.py:497-503). -/
def ch_keys : List String :=
  ["PARAM_ID_BOILER_CH_CUR_TEMP",
   "PARAM_ID_BOILER_CH_SET_RANGE_DOWN",
   "PARAM_ID_BOILER_CH_SET_RANGE_UP",
   "PARAM_ID_BOILER_CH_MAX_SETPOINT",
   "PARAM_ID_BOILER_CH_TRG_TEMP"]

/-- The 4 "Sanitary" water-heater keys (api.py:519-524). -/
def dhw_keys : List String :=
  ["PARAM_ID_BOILER_DHW_CUR_TEMP",
   "PARAM_ID_BOILER_DHW_SET_RANGE_DOWN",
   "PARAM_ID_BOILER_DHW_SET_RANGE_UP",
   "PARAM_ID_BOILER_DHW_TRG_TEMP"]

/-- The "Heating" block of `get_water_heaters` (api.py:505-517). It checks
all 5 ch_keys but pops only 4 of them: CH_TRG_TEMP stays in the working map
(it is later claimed by the sensors pass). -/
def waterHeaterChBlock (m : DPMap) : List WaterHeaterData × DPMap :=
  if ch_keys.all (fun k => containsKey m k) then
    let p1 := popD m "PARAM_ID_BOILER_CH_SET_RANGE_DOWN"
    let p2 := popD p1.2 "PARAM_ID_BOILER_CH_SET_RANGE_UP"
    let p3 := popD p2.2 "PARAM_ID_BOILER_CH_CUR_TEMP"
    let p4 := popD p3.2 "PARAM_ID_BOILER_CH_MAX_SETPOINT"
    ([{ name := "Heating Water Heater", icon := some "mdi:radiator",
        min_temp := p1.1, max_temp := p2.1, current_temp := p3.1,
        target_temp := p4.1, target_temp_step := 1, temp_unit := "°C" }], p4.2)
  else ([], m)

/-- The "Sanitary" block of `get_water_heaters` (api.py:526-538). -/
def waterHeaterDhwBlock (m : DPMap) : List WaterHeaterData × DPMap :=
  if dhw_keys.all (fun k => containsKey m k) then
    let q1 := popD m "PARAM_ID_BOILER_DHW_SET_RANGE_DOWN"
    let q2 := popD q1.2 "PARAM_ID_BOILER_DHW_SET_RANGE_UP"
    let q3 := popD q2.2 "PARAM_ID_BOILER_DHW_CUR_TEMP"
    let q4 := popD q3.2 "PARAM_ID_BOILER_DHW_TRG_TEMP"
    ([{ name := "Sanitary Water Heater", icon := some "mdi:faucet",
        min_temp := q1.1, max_temp := q2.1, current_temp := q3.1,
        target_temp := q4.1, target_temp_step := 1, temp_unit := "°C" }], q4.2)
  else ([], m)

/-- `SmartDevice.get_water_heaters` (api.py:490-540): the Heating block, then
the Sanitary block on the shrunk map. -/
def get_water_heaters (m : DPMap) : List WaterHeaterData × DPMap :=
  let ch := waterHeaterChBlock m
  let dhw := waterHeaterDhwBlock ch.2
  (ch.1 ++ dhw.1, dhw.2)

/-- `SmartDevice.get_climate_data` (api.py:542-569). -/
def get_climate_data (m : DPMap) : List ClimateData × DPMap :=
  let thermostat_keys : List String :=
    ["PARAM_ID_TH_CUR_ROOM_TEMP", "PARAM_ID_TH_TRG_ROOM_TEMP", "PARAM_ID_TH_WORK_MODE"]
  if thermostat_keys.all (fun k => containsKey m k) then
    let c1 := popD m "PARAM_ID_TH_CUR_ROOM_TEMP"
    let c2 := popD c1.2 "PARAM_ID_TH_TRG_ROOM_TEMP"
    let c3 := popD c2.2 "PARAM_ID_TH_WORK_MODE"
    ([{ name := "Thermostat", icon := some "mdi:thermostat",
        min_temp := none, max_temp := none,
        current_temp := c1.1, target_temp := c2.1,
        target_temp_step := 1/2, temp_unit := "°C",
        hvac_mode := c3.1,
        hvac_modes := [(0, "auto"), (1, "heat"), (4, "off")] }], c3.2)
  else ([], m)

/-- `SmartDevice.get_select_data` (api.py:600-622); the source checks the key
"SYS_WORK_MODE" without the PARAM_ID_ prefix. -/
def get_select_data (m : DPMap) : List SelectData × DPMap :=
  if containsKey m "SYS_WORK_MODE" then
    let s := popD m "SYS_WORK_MODE"
    ([{ data_point := s.1, name := "Work Mode", icon := some "mdi:auto-mode",
        options := [(0, "Standby"), (2, "Sanitary"), (3, "Heating"),
                    (10, "Heating & Sanitary")] }], s.2)
  else ([], m)

/-- First block of `get_switches_data` (api.py:578-586). The source guards
with `data_points.get(k) is not None`; on a dict that holds no None values
this is key presence. -/
def switchDhwProBlock (m : DPMap) : List SwitchData × DPMap :=
  if containsKey m "PARAM_ID_BOILER_DHW_PRO_EN" then
    let s := popD m "PARAM_ID_BOILER_DHW_PRO_EN"
    ([{ data_point := s.1, name := "Domestic Water Heating Program",
        icon := some "mdi:home-clock", device_class := some "switch" }], s.2)
  else ([], m)

/-- Second block of `get_switches_data` (api.py:588-596). -/
def switchDstBlock (m : DPMap) : List SwitchData × DPMap :=
  if containsKey m "PARAM_ID_SYS_DST_ENABLE" then
    let s := popD m "PARAM_ID_SYS_DST_ENABLE"
    ([{ data_point := s.1, name := "Auto Time Sync",
        icon := some "mdi:clock", device_class := some "switch" }], s.2)
  else ([], m)

/-- `SmartDevice.get_switches_data` (api.py:571-598). -/
def get_switches_data (m : DPMap) : List SwitchData × DPMap :=
  let sw1 := switchDhwProBlock m
  let sw2 := switchDstBlock sw1.2
  (sw1.1 ++ sw2.1, sw2.2)

/-- `SmartDevice.get_numbers_data` (api.py:741-763). -/
def get_numbers_data (m : DPMap) : List NumberData × DPMap :=
  if containsKey m "PARAM_ID_TH_POWEROFF_FROZE_TEMP" then
    let s := popD m "PARAM_ID_TH_POWEROFF_FROZE_TEMP"
    ([{ data_point := s.1, name := "Poweroff Froze Temperature",
        icon := some "mdi:snowflake-thermometer",
        device_class := some "temperature", mode := "box",
        min_value := some 5, max_value := some 15, step_value := some (1/2),
        unit_of_measurement := some "°C" }], s.2)
  else ([], m)

/-- The exact-match "Heating Target Temperature" sensor entry
(api.py:631-641). -/
def heatingTargetEntry (dp : SmartDeviceDataPoint) : SensorData :=
  { data_point := dp, name := "Heating Target Temperature",
    icon := some "mdi:thermometer", device_class := some "temperature",
    state_class := some "measurement", unit_of_measurement := some "°C",
    options := none, entity_category := none }

/-- The sensor entries the loop body of `get_sensors_data` (api.py:643-737)
produces for one snapshot key. The source pops the key inside each matching
branch; the branch conditions are pairwise exclusive (the first two are an
if/elif chain, and no key can end in two of the checked suffixes or equal one
exact key while ending in a checked suffix), so each key yields at most one
entry and each pop finds its key. -/
def sensorEntriesFor (k : String) (d : SmartDeviceDataPoint) : List SensorData :=
  (if k == "PARAM_ID_BOILER_OUTDOOR_TEMP" then
    [{ data_point := d, name := "Outdoor Temperature",
       icon := some "mdi:thermometer", device_class := some "temperature",
       state_class := some "measurement", unit_of_measurement := some "°C",
       options := none, entity_category := none }]
   else if pyEndsWith k "_TEMP" then
    [{ data_point := d, name := pyTitle d.name,
       icon := some "mdi:thermometer", device_class := some "temperature",
       state_class := some "measurement", unit_of_measurement := some "°C",
       options := none, entity_category := none }]
   else []) ++
  (if pyEndsWith k "_RATE" then
    [{ data_point := d, name := pyTitle d.name,
       icon := some "mdi:waves", device_class := some "volume_flow_rate",
       state_class := some "measurement", unit_of_measurement := some "L/s",
       options := none, entity_category := none }]
   else []) ++
  (if pyEndsWith k "_PRESSURE" then
    [{ data_point := d, name := pyTitle d.name,
       icon := some "mdi:gauge", device_class := some "pressure",
       state_class := some "measurement", unit_of_measurement := some "bar",
       options := none, entity_category := none }]
   else []) ++
  (if pyEndsWith k "WIFI_SIGNAL" || pyEndsWith k "WIFI__SIGNAL" then
    [{ data_point := d, name := "WiFi Signal",
       icon := some "mdi:signal-variant", device_class := none,
       state_class := some "measurement", unit_of_measurement := none,
       options := none, entity_category := some "diagnostic" }]
   else []) ++
  (if pyEndsWith k "_FAULT_CODE" then
    [{ data_point := d, name := pyTitle d.name,
       icon := some "mdi:alert", device_class := none, state_class := none,
       unit_of_measurement := none, options := none,
       entity_category := some "diagnostic" }]
   else []) ++
  (if k == "PARAM_ID_BOILER_OT_SLAVE_STATUS" then
    [{ data_point := d, name := "Status",
       icon := some "mdi:state-machine", device_class := some "enum",
       state_class := none, unit_of_measurement := none,
       options := some [(0, "Standby"), (2, "Radiators"), (4, "Domestic Water"),
                        (10, "Flame + Radiators"), (12, "Flame + Domestic Water")],
       entity_category := none }]
   else []) ++
  (if k == "PARAM_ID_SYS_SOFT_VER" then
    [{ data_point := d, name := "Software Version",
       icon := some "mdi:numeric", device_class := none, state_class := none,
       unit_of_measurement := none, options := none,
       entity_category := some "diagnostic" }]
   else [])

/-- Whether the loop of `get_sensors_data` pops (claims) a snapshot key. -/
def sensorLoopClaims (k : String) : Bool :=
  k == "PARAM_ID_BOILER_OUTDOOR_TEMP" || pyEndsWith k "_TEMP" ||
  pyEndsWith k "_RATE" || pyEndsWith k "_PRESSURE" ||
  pyEndsWith k "WIFI_SIGNAL" || pyEndsWith k "WIFI__SIGNAL" ||
  pyEndsWith k "_FAULT_CODE" || k == "PARAM_ID_BOILER_OT_SLAVE_STATUS" ||
  k == "PARAM_ID_SYS_SOFT_VER"

/-- The exact-match CH_TRG_TEMP rule of `get_sensors_data` (api.py:631-641),
which runs before the suffix loop. -/
def sensorChTrgBlock (m : DPMap) : List SensorData × DPMap :=
  if containsKey m "PARAM_ID_BOILER_CH_TRG_TEMP" then
    let s := popD m "PARAM_ID_BOILER_CH_TRG_TEMP"
    ([heatingTargetEntry s.1], s.2)
  else ([], m)

/-- `SmartDevice.get_sensors_data` (api.py:624-739): the exact-match
CH_TRG_TEMP rule runs first; the loop then iterates over a snapshot
(`list(data_points.items())`) taken after that pop, so the snapshot excludes
CH_TRG_TEMP whenever it was claimed. -/
def get_sensors_data (m : DPMap) : List SensorData × DPMap :=
  let first := sensorChTrgBlock m
  (first.1 ++ first.2.flatMap (fun kd => sensorEntriesFor kd.1 kd.2),
   (first.2).filter (fun kd => !(sensorLoopClaims kd.1)))

/-- The binary-sensor entries the loop body of `get_binary_sensors_data`
(api.py:765-809) produces for one snapshot key (an if/elif chain: at most one
branch fires per key). -/
def binarySensorEntriesFor (k : String) (d : SmartDeviceDataPoint) : List SensorData :=
  if k == "PARAM_ID_BOILER_IS_ROOM_SENSOR_ENABL" then
    [{ data_point := d, name := "External Temperature Sensor",
       icon := some "mdi:thermometer-probe", device_class := some "plug",
       state_class := none, unit_of_measurement := none, options := none,
       entity_category := none }]
  else if k == "PARAM_ID_BOILER_IS_OT_CONNECTED" then
    [{ data_point := d, name := "Thermostat Connection",
       icon := some "mdi:thermostat-box", device_class := some "connectivity",
       state_class := none, unit_of_measurement := none, options := none,
       entity_category := none }]
  else if k == "PARAM_ID_BOILER_OTC_ENABLE" then
    [{ data_point := d, name := "Outdoor Temperature Compensation",
       icon := none, device_class := none, state_class := none,
       unit_of_measurement := none, options := none, entity_category := none }]
  else if pyEndsWith k "_ENABLE" || pyEndsWith k "_ENABL" || pyEndsWith k "_CONNECTED" then
    [{ data_point := d, name := pyTitle d.name,
       icon := none, device_class := none, state_class := none,
       unit_of_measurement := none, options := none, entity_category := none }]
  else []

/-- Whether the loop of `get_binary_sensors_data` pops (claims) a key. -/
def binaryLoopClaims (k : String) : Bool :=
  k == "PARAM_ID_BOILER_IS_ROOM_SENSOR_ENABL" ||
  k == "PARAM_ID_BOILER_IS_OT_CONNECTED" ||
  k == "PARAM_ID_BOILER_OTC_ENABLE" ||
  pyEndsWith k "_ENABLE" || pyEndsWith k "_ENABL" || pyEndsWith k "_CONNECTED"

/-- `SmartDevice.get_binary_sensors_data` (api.py:765-809). -/
def get_binary_sensors_data (m : DPMap) : List SensorData × DPMap :=
  (m.flatMap (fun kd => binarySensorEntriesFor kd.1 kd.2),
   m.filter (fun kd => !(binaryLoopClaims kd.1)))

/-- Name starting with one of the two unconditionally dropped prefixes
(api.py:486-488). -/
def isDroppedName (k : String) : Bool :=
  pyStartsWith k "PARAM_ID_BOILER_DHW_PRO_" || pyStartsWith k "PARAM_ID_TH_ROOM_PROG_DAY_"

/-- `SmartDevice.remove_unsupported_data` (api.py:473-488): pops the two
hard-pruned keys (a bare `dict.pop` — KeyError when absent), then drops every
key with one of the two pruned prefixes. -/
def remove_unsupported_data (m : DPMap) : Except String DPMap :=
  if containsKey m "PARAM_ID_SYS_DEVICE_MODULE" then
    let m1 := eraseKey m "PARAM_ID_SYS_DEVICE_MODULE"
    if containsKey m1 "PARAM_ID_TH_DELETE_TH_ADDR" then
      let m2 := eraseKey m1 "PARAM_ID_TH_DELETE_TH_ADDR"
      Except.ok (m2.filter (fun p => !(isDroppedName p.1)))
    else Except.error "KeyError: PARAM_ID_TH_DELETE_TH_ADDR"
  else Except.error "KeyError: PARAM_ID_SYS_DEVICE_MODULE"

/-- The capability groups and residual produced by `parse_data_points`. -/
structure ParsedDevice where
  water_heaters : List WaterHeaterData
  climate_data : List ClimateData
  select_data : List SelectData
  switches_data : List SwitchData
  numbers_data : List NumberData
  sensors_data : List SensorData
  binary_sensors_data : List SensorData
  unknown_points : DPMap
deriving DecidableEq, Repr

/-! Working-map snapshots between the passes of `parse_data_points`: each
pass runs on the map its predecessor left behind. -/

def mapAfterWH (m : DPMap) : DPMap := (get_water_heaters m).2

def mapAfterClimate (m : DPMap) : DPMap := (get_climate_data (mapAfterWH m)).2

def mapAfterSelect (m : DPMap) : DPMap := (get_select_data (mapAfterClimate m)).2

def mapAfterSwitches (m : DPMap) : DPMap := (get_switches_data (mapAfterSelect m)).2

def mapAfterNumbers (m : DPMap) : DPMap := (get_numbers_data (mapAfterSwitches m)).2

def mapAfterSensors (m : DPMap) : DPMap := (get_sensors_data (mapAfterNumbers m)).2

def mapAfterBinary (m : DPMap) : DPMap := (get_binary_sensors_data (mapAfterSensors m)).2

/-- `SmartDevice.parse_data_points` (api.py:459-471): the seven capability
passes run in source order on a shrinking working map (the `mapAfter*`
snapshots); the unconditional pruning runs last. -/
def parse_data_points (m : DPMap) : Except String ParsedDevice :=
  match remove_unsupported_data (mapAfterBinary m) with
  | Except.ok residual =>
      Except.ok { water_heaters := (get_water_heaters m).1,
                  climate_data := (get_climate_data (mapAfterWH m)).1,
                  select_data := (get_select_data (mapAfterClimate m)).1,
                  switches_data := (get_switches_data (mapAfterSelect m)).1,
                  numbers_data := (get_numbers_data (mapAfterSwitches m)).1,
                  sensors_data := (get_sensors_data (mapAfterNumbers m)).1,
                  binary_sensors_data := (get_binary_sensors_data (mapAfterSensors m)).1,
                  unknown_points := residual }
  | Except.error e => Except.error e

/-! The keys each pass claims (removes), for stating the classification
claims. -/

/-- The keys of A that are gone from B: the keys a pass claimed. -/
def removedKeys (a b : List String) : List String :=
  a.filter (fun k => !(b.contains k))

def claimedWaterHeaterKeys (m : DPMap) : List String :=
  removedKeys (keysOf m) (keysOf (mapAfterWH m))

def claimedClimateKeys (m : DPMap) : List String :=
  removedKeys (keysOf (mapAfterWH m)) (keysOf (mapAfterClimate m))

def claimedSelectKeys (m : DPMap) : List String :=
  removedKeys (keysOf (mapAfterClimate m)) (keysOf (mapAfterSelect m))

def claimedSwitchKeys (m : DPMap) : List String :=
  removedKeys (keysOf (mapAfterSelect m)) (keysOf (mapAfterSwitches m))

def claimedNumberKeys (m : DPMap) : List String :=
  removedKeys (keysOf (mapAfterSwitches m)) (keysOf (mapAfterNumbers m))

def claimedSensorKeys (m : DPMap) : List String :=
  removedKeys (keysOf (mapAfterNumbers m)) (keysOf (mapAfterSensors m))

def claimedBinarySensorKeys (m : DPMap) : List String :=
  removedKeys (keysOf (mapAfterSensors m)) (keysOf (mapAfterBinary m))

/-- The per-group claimed keys, in pass order. -/
def claimedGroups (m : DPMap) : List (List String) :=
  [claimedWaterHeaterKeys m, claimedClimateKeys m, claimedSelectKeys m,
   claimedSwitchKeys m, claimedNumberKeys m, claimedSensorKeys m,
   claimedBinarySensorKeys m]

/-- The two hard-pruned keys (api.py:478-481). -/
def hardPrunedKeys : List String :=
  ["PARAM_ID_SYS_DEVICE_MODULE", "PARAM_ID_TH_DELETE_TH_ADDR"]

/-- The keys dropped by the prefix pruning of `remove_unsupported_data`:
keys of the post-pass working map (less the two hard-pruned keys) whose name
starts with one of the two dropped prefixes. -/
def prunedPrefixKeys (m : DPMap) : List String :=
  (keysOf (eraseKey (eraseKey (mapAfterBinary m) "PARAM_ID_SYS_DEVICE_MODULE")
      "PARAM_ID_TH_DELETE_TH_ADDR")).filter isDroppedName

/-- The residual keys of a map (empty when classification raises), for
stating the partition counterexample. -/
def residualKeys (m : DPMap) : List String :=
  match parse_data_points m with
  | Except.ok p => keysOf p.unknown_points
  | Except.error _ => []

/-! ### The inbound MQTT command router (api.py:123-141, 448-452) -/

/-- `SmartDeviceDataPoint.update_value` (api.py:846-850), the value part:
overwrite the stored wire value. (The listener fan-out is modelled by
`invokedCallbacks` below.) -/
def update_value (dp : SmartDeviceDataPoint) (v : ℚ) : SmartDeviceDataPoint :=
  { dp with value := v }

/-- In-place mutation of the data point stored under a key. -/
def setDP : DPMap → String → SmartDeviceDataPoint → DPMap
  | [], _, _ => []
  | p :: rest, k, dp => if p.1 == k then (p.1, dp) :: rest else p :: setDP rest k dp

/-- `SmartDevice.handle_mqtt_command` (api.py:448-452): for each (key, cmd)
of the command dict, update the named data point when the key is known;
an unknown key is skipped. Each cmd payload is modelled by its "v" value. -/
def handle_mqtt_command (m : DPMap) (data : List (String × ℚ)) : DPMap :=
  data.foldl
    (fun acc kv =>
      match getDP acc kv.1 with
      | some dp => setDP acc kv.1 (update_value dp kv.2)
      | none => acc)
    m

/-- One entry of the "data" list of an inbound message: `cmd`, `mac`
(`d.get("mac", "")`, so a missing mac reads as ""), and the command dict. -/
structure MqttDataEntry where
  cmd : ℤ
  mac : String
  command : List (String × ℚ)

/-- The api's device registry, mac address → device data points. -/
abbrev Devices := List (String × DPMap)

def getDevice : Devices → String → Option DPMap
  | [], _ => none
  | p :: rest, k => if p.1 == k then some p.2 else getDevice rest k

def setDevice : Devices → String → DPMap → Devices
  | [], _, _ => []
  | p :: rest, k, v => if p.1 == k then (p.1, v) :: rest else p :: setDevice rest k v

/-- `TopbandCloudApi.on_mqtt_message` (api.py:123-141): for each data entry
with cmd 98, `self.devices.get(mac).handle_mqtt_command(...)` — when the mac
is not a known device, `dict.get` returns None and the attribute access
raises (modelled as Except.error). Any other cmd is logged and skipped, as is
a message whose method is not "command". -/
def on_mqtt_message (devices : Devices) (method : String)
    (data : List MqttDataEntry) : Except String Devices :=
  if method == "command" then
    data.foldlM
      (fun devs d =>
        if d.cmd == (98 : ℤ) then
          match getDevice devs d.mac with
          | some dps =>
              Except.ok (setDevice devs d.mac (handle_mqtt_command dps d.command))
          | none =>
              Except.error "AttributeError: NoneType object has no attribute handle_mqtt_command"
        else Except.ok devs)
      devices
  else Except.ok devices

/-! ### Observer fan-out (api.py:846-850) -/

/-- `update_value`'s fan-out `for c in self._listener: c()`: listeners in
iteration order, each flagged true when its callback raises. Returns the
positions invoked: the loop body has no exception handling, so a raising
callback is the last one invoked — the exception propagates and aborts the
loop. -/
def invokedCallbacks : List Bool → List Nat
  | [] => []
  | raises :: rest =>
    0 :: (if raises then [] else (invokedCallbacks rest).map (fun i => i + 1))

/-! ### Concrete fixtures: small vendor payloads used to instantiate the
claims (data-point names are the vendor key with `PARAM_ID_` stripped, as
the SmartDevice constructor does, api.py:436). -/

def mkDP (i : ℤ) (n : String) : SmartDeviceDataPoint :=
  { index := i, name := n, pointType := 1, value := 0 }

/-- The two hard-pruned keys plus one prefix-dropped program key. -/
def progDayMap : DPMap :=
  [("PARAM_ID_SYS_DEVICE_MODULE", mkDP 1 "SYS_DEVICE_MODULE"),
   ("PARAM_ID_TH_DELETE_TH_ADDR", mkDP 2 "TH_DELETE_TH_ADDR"),
   ("PARAM_ID_TH_ROOM_PROG_DAY_1", mkDP 3 "TH_ROOM_PROG_DAY_1")]

/-- The two hard-pruned keys plus one unclaimed (residual) key. -/
def residualWitnessMap : DPMap :=
  [("PARAM_ID_SYS_DEVICE_MODULE", mkDP 1 "SYS_DEVICE_MODULE"),
   ("PARAM_ID_TH_DELETE_TH_ADDR", mkDP 2 "TH_DELETE_TH_ADDR"),
   ("PARAM_ID_XYZ", mkDP 3 "XYZ")]

/-- What `parse_data_points` yields on `residualWitnessMap`: no capability
group fires and the unclaimed key is residual. -/
def residualWitnessParsed : ParsedDevice :=
  { water_heaters := [], climate_data := [], select_data := [],
    switches_data := [], numbers_data := [], sensors_data := [],
    binary_sensors_data := [],
    unknown_points := [("PARAM_ID_XYZ", mkDP 3 "XYZ")] }

/-- What `parse_data_points` yields on `progDayMap`: no group fires and the
program key is dropped, leaving nothing residual. -/
def progDayParsed : ParsedDevice :=
  { water_heaters := [], climate_data := [], select_data := [],
    switches_data := [], numbers_data := [], sensors_data := [],
    binary_sensors_data := [], unknown_points := [] }

/-- A map with only the first hard-pruned key: classification raises. -/
def missingDeleteAddrMap : DPMap :=
  [("PARAM_ID_SYS_DEVICE_MODULE", mkDP 1 "SYS_DEVICE_MODULE")]

/-- Exactly the 5 "Heating" water-heater keys. -/
def chOnlyMap : DPMap := ch_keys.map (fun k => (k, mkDP 0 k))

/-- All 9 combined heating and sanitary water-heater keys. -/
def chDhwMap : DPMap := (ch_keys ++ dhw_keys).map (fun k => (k, mkDP 0 k))

/-- A map holding only the heating-target-temperature key. -/
def chTrgOnlyMap : DPMap :=
  [("PARAM_ID_BOILER_CH_TRG_TEMP", mkDP 7 "BOILER_CH_TRG_TEMP")]

/-- One registered device for the router examples: mac "AA:BB" with a single
pointType-1 data point "FOO". -/
def routerDevices : Devices :=
  [("AA:BB", [("FOO", { index := 1, name := "FOO", pointType := 1, value := 0 })])]

/-! ### Lemmas about the map operations -/

theorem containsKey_iff_mem_keysOf (m : DPMap) (k : String) :
    containsKey m k = true ↔ k ∈ keysOf m := by
  induction m with
  | nil => simp [containsKey, keysOf]
  | cons p rest ih =>
    simp [containsKey, keysOf, ih, Bool.or_eq_true, eq_comm (a := p.1)]

theorem getDP_isSome_iff (m : DPMap) (k : String) :
    (getDP m k).isSome = true ↔ containsKey m k = true := by
  induction m with
  | nil => simp [getDP, containsKey]
  | cons p rest ih =>
    by_cases h : p.1 = k
    · simp [getDP, containsKey, h]
    · simp [getDP, containsKey, h, ih]

theorem containsKey_eraseKey (m : DPMap) (x k : String) :
    containsKey (eraseKey m x) k = (containsKey m k && !(k == x)) := by
  induction m with
  | nil => simp [eraseKey, containsKey]
  | cons p rest ih =>
    by_cases h : p.1 = x
    · subst h
      by_cases hk : k = p.1
      · subst hk
        simp [eraseKey, containsKey, ih]
      · have hxk : (p.1 == k) = false := by simp [Ne.symm hk]
        simp [eraseKey, containsKey, ih, hxk]
    · by_cases hk : p.1 = k
      · subst hk
        have hb : (p.1 == x) = false := by simp [h]
        simp [eraseKey, containsKey, hb]
      · have h1 : (p.1 == k) = false := by simp [hk]
        have hb : (p.1 == x) = false := by simp [h]
        simp [eraseKey, containsKey, hb, h1, ih]

theorem keysOf_eraseKey_sublist (m : DPMap) (x : String) :
    List.Sublist (keysOf (eraseKey m x)) (keysOf m) := by
  induction m with
  | nil => simp [eraseKey, keysOf]
  | cons p rest ih =>
    by_cases h : p.1 = x
    · have hb : (p.1 == x) = true := by simp [h]
      simp only [eraseKey, keysOf, hb, if_true, List.map_cons]
      exact List.Sublist.cons _ ih
    · have hb : (p.1 == x) = false := by simp [h]
      simp only [eraseKey, keysOf, hb, Bool.false_eq_true, if_false, List.map_cons]
      exact List.Sublist.cons₂ _ ih

theorem keysOf_filter_sublist (m : DPMap) (p : String × SmartDeviceDataPoint → Bool) :
    List.Sublist (keysOf (m.filter p)) (keysOf m) :=
  List.Sublist.map Prod.fst (List.filter_sublist m)

theorem containsKey_of_sublist {m m2 : DPMap} (h : List.Sublist (keysOf m2) (keysOf m))
    {k : String} (hk : containsKey m2 k = true) : containsKey m k = true := by
  rw [containsKey_iff_mem_keysOf] at hk ⊢
  exact h.mem hk

theorem containsKey_filterKey (m : DPMap) (f : String → Bool) (k : String) :
    containsKey (m.filter (fun kd => f kd.1)) k = (containsKey m k && f k) := by
  induction m with
  | nil => simp [containsKey]
  | cons p rest ih =>
    by_cases hf : f p.1 = true
    · by_cases hk : p.1 = k
      · subst hk
        simp [containsKey, List.filter_cons, hf, ih]
      · have h1 : (p.1 == k) = false := by simp [hk]
        simp [containsKey, List.filter_cons, hf, h1, ih]
    · have hf2 : f p.1 = false := by simpa using hf
      by_cases hk : p.1 = k
      · subst hk
        simp [containsKey, List.filter_cons, hf2, ih, Bool.and_or_distrib_right]
      · have h1 : (p.1 == k) = false := by simp [hk]
        simp [containsKey, List.filter_cons, hf2, h1, ih]

/-! ### Each pass only shrinks the working map -/

theorem waterHeaterChBlock_sublist (m : DPMap) :
    List.Sublist (keysOf (waterHeaterChBlock m).2) (keysOf m) := by
  unfold waterHeaterChBlock
  split
  · simp only [popD]
    exact ((keysOf_eraseKey_sublist _ _).trans
      ((keysOf_eraseKey_sublist _ _).trans
        ((keysOf_eraseKey_sublist _ _).trans (keysOf_eraseKey_sublist _ _))))
  · exact List.Sublist.refl _

theorem waterHeaterDhwBlock_sublist (m : DPMap) :
    List.Sublist (keysOf (waterHeaterDhwBlock m).2) (keysOf m) := by
  unfold waterHeaterDhwBlock
  split
  · simp only [popD]
    exact ((keysOf_eraseKey_sublist _ _).trans
      ((keysOf_eraseKey_sublist _ _).trans
        ((keysOf_eraseKey_sublist _ _).trans (keysOf_eraseKey_sublist _ _))))
  · exact List.Sublist.refl _

theorem get_water_heaters_sublist (m : DPMap) :
    List.Sublist (keysOf (get_water_heaters m).2) (keysOf m) :=
  (waterHeaterDhwBlock_sublist _).trans (waterHeaterChBlock_sublist m)

theorem get_climate_data_sublist (m : DPMap) :
    List.Sublist (keysOf (get_climate_data m).2) (keysOf m) := by
  unfold get_climate_data
  dsimp only
  split
  · simp only [popD]
    exact ((keysOf_eraseKey_sublist _ _).trans
      ((keysOf_eraseKey_sublist _ _).trans (keysOf_eraseKey_sublist _ _)))
  · exact List.Sublist.refl _

theorem get_select_data_sublist (m : DPMap) :
    List.Sublist (keysOf (get_select_data m).2) (keysOf m) := by
  unfold get_select_data
  split
  · simp only [popD]
    exact keysOf_eraseKey_sublist _ _
  · exact List.Sublist.refl _

theorem switchDhwProBlock_sublist (m : DPMap) :
    List.Sublist (keysOf (switchDhwProBlock m).2) (keysOf m) := by
  unfold switchDhwProBlock
  split
  · simp only [popD]
    exact keysOf_eraseKey_sublist _ _
  · exact List.Sublist.refl _

theorem switchDstBlock_sublist (m : DPMap) :
    List.Sublist (keysOf (switchDstBlock m).2) (keysOf m) := by
  unfold switchDstBlock
  split
  · simp only [popD]
    exact keysOf_eraseKey_sublist _ _
  · exact List.Sublist.refl _

theorem get_switches_data_sublist (m : DPMap) :
    List.Sublist (keysOf (get_switches_data m).2) (keysOf m) :=
  (switchDstBlock_sublist _).trans (switchDhwProBlock_sublist m)

theorem get_numbers_data_sublist (m : DPMap) :
    List.Sublist (keysOf (get_numbers_data m).2) (keysOf m) := by
  unfold get_numbers_data
  split
  · simp only [popD]
    exact keysOf_eraseKey_sublist _ _
  · exact List.Sublist.refl _

theorem sensorChTrgBlock_sublist (m : DPMap) :
    List.Sublist (keysOf (sensorChTrgBlock m).2) (keysOf m) := by
  unfold sensorChTrgBlock
  split
  · simp only [popD]
    exact keysOf_eraseKey_sublist _ _
  · exact List.Sublist.refl _

theorem get_sensors_data_sublist (m : DPMap) :
    List.Sublist (keysOf (get_sensors_data m).2) (keysOf m) :=
  (keysOf_filter_sublist _ _).trans (sensorChTrgBlock_sublist m)

theorem get_binary_sensors_data_sublist (m : DPMap) :
    List.Sublist (keysOf (get_binary_sensors_data m).2) (keysOf m) :=
  keysOf_filter_sublist _ _

theorem mapAfterBinary_sublist (m : DPMap) :
    List.Sublist (keysOf (mapAfterBinary m)) (keysOf m) :=
  ((get_binary_sensors_data_sublist _).trans
    ((get_sensors_data_sublist _).trans
      ((get_numbers_data_sublist _).trans
        ((get_switches_data_sublist _).trans
          ((get_select_data_sublist _).trans
            ((get_climate_data_sublist _).trans (get_water_heaters_sublist m)))))))

/-! ### A pass leaves keys it does not pop untouched -/

theorem containsKey_eraseKey_ne (m : DPMap) (x k : String) (h : k ≠ x) :
    containsKey (eraseKey m x) k = containsKey m k := by
  have hb : (k == x) = false := by simp [h]
  simp [containsKey_eraseKey, hb]

theorem containsKey_waterHeaterChBlock (m : DPMap) (k : String)
    (h1 : k ≠ "PARAM_ID_BOILER_CH_SET_RANGE_DOWN")
    (h2 : k ≠ "PARAM_ID_BOILER_CH_SET_RANGE_UP")
    (h3 : k ≠ "PARAM_ID_BOILER_CH_CUR_TEMP")
    (h4 : k ≠ "PARAM_ID_BOILER_CH_MAX_SETPOINT") :
    containsKey (waterHeaterChBlock m).2 k = containsKey m k := by
  unfold waterHeaterChBlock
  split
  · simp only [popD]
    rw [containsKey_eraseKey_ne _ _ _ h4, containsKey_eraseKey_ne _ _ _ h3,
        containsKey_eraseKey_ne _ _ _ h2, containsKey_eraseKey_ne _ _ _ h1]
  · rfl

theorem containsKey_waterHeaterDhwBlock (m : DPMap) (k : String)
    (h1 : k ≠ "PARAM_ID_BOILER_DHW_SET_RANGE_DOWN")
    (h2 : k ≠ "PARAM_ID_BOILER_DHW_SET_RANGE_UP")
    (h3 : k ≠ "PARAM_ID_BOILER_DHW_CUR_TEMP")
    (h4 : k ≠ "PARAM_ID_BOILER_DHW_TRG_TEMP") :
    containsKey (waterHeaterDhwBlock m).2 k = containsKey m k := by
  unfold waterHeaterDhwBlock
  split
  · simp only [popD]
    rw [containsKey_eraseKey_ne _ _ _ h4, containsKey_eraseKey_ne _ _ _ h3,
        containsKey_eraseKey_ne _ _ _ h2, containsKey_eraseKey_ne _ _ _ h1]
  · rfl

theorem containsKey_get_water_heaters (m : DPMap) (k : String)
    (h1 : k ≠ "PARAM_ID_BOILER_CH_SET_RANGE_DOWN")
    (h2 : k ≠ "PARAM_ID_BOILER_CH_SET_RANGE_UP")
    (h3 : k ≠ "PARAM_ID_BOILER_CH_CUR_TEMP")
    (h4 : k ≠ "PARAM_ID_BOILER_CH_MAX_SETPOINT")
    (h5 : k ≠ "PARAM_ID_BOILER_DHW_SET_RANGE_DOWN")
    (h6 : k ≠ "PARAM_ID_BOILER_DHW_SET_RANGE_UP")
    (h7 : k ≠ "PARAM_ID_BOILER_DHW_CUR_TEMP")
    (h8 : k ≠ "PARAM_ID_BOILER_DHW_TRG_TEMP") :
    containsKey (get_water_heaters m).2 k = containsKey m k := by
  unfold get_water_heaters
  dsimp only
  rw [containsKey_waterHeaterDhwBlock _ _ h5 h6 h7 h8,
      containsKey_waterHeaterChBlock _ _ h1 h2 h3 h4]

theorem containsKey_get_climate_data (m : DPMap) (k : String)
    (h1 : k ≠ "PARAM_ID_TH_CUR_ROOM_TEMP")
    (h2 : k ≠ "PARAM_ID_TH_TRG_ROOM_TEMP")
    (h3 : k ≠ "PARAM_ID_TH_WORK_MODE") :
    containsKey (get_climate_data m).2 k = containsKey m k := by
  unfold get_climate_data
  dsimp only
  split
  · simp only [popD]
    rw [containsKey_eraseKey_ne _ _ _ h3, containsKey_eraseKey_ne _ _ _ h2,
        containsKey_eraseKey_ne _ _ _ h1]
  · rfl

theorem containsKey_get_select_data (m : DPMap) (k : String)
    (h1 : k ≠ "SYS_WORK_MODE") :
    containsKey (get_select_data m).2 k = containsKey m k := by
  unfold get_select_data
  split
  · simp only [popD]
    rw [containsKey_eraseKey_ne _ _ _ h1]
  · rfl

theorem containsKey_switchDhwProBlock (m : DPMap) (k : String)
    (h1 : k ≠ "PARAM_ID_BOILER_DHW_PRO_EN") :
    containsKey (switchDhwProBlock m).2 k = containsKey m k := by
  unfold switchDhwProBlock
  split
  · simp only [popD]
    rw [containsKey_eraseKey_ne _ _ _ h1]
  · rfl

theorem containsKey_switchDstBlock (m : DPMap) (k : String)
    (h1 : k ≠ "PARAM_ID_SYS_DST_ENABLE") :
    containsKey (switchDstBlock m).2 k = containsKey m k := by
  unfold switchDstBlock
  split
  · simp only [popD]
    rw [containsKey_eraseKey_ne _ _ _ h1]
  · rfl

theorem containsKey_get_switches_data (m : DPMap) (k : String)
    (h1 : k ≠ "PARAM_ID_BOILER_DHW_PRO_EN")
    (h2 : k ≠ "PARAM_ID_SYS_DST_ENABLE") :
    containsKey (get_switches_data m).2 k = containsKey m k := by
  unfold get_switches_data
  dsimp only
  rw [containsKey_switchDstBlock _ _ h2, containsKey_switchDhwProBlock _ _ h1]

theorem containsKey_get_numbers_data (m : DPMap) (k : String)
    (h1 : k ≠ "PARAM_ID_TH_POWEROFF_FROZE_TEMP") :
    containsKey (get_numbers_data m).2 k = containsKey m k := by
  unfold get_numbers_data
  split
  · simp only [popD]
    rw [containsKey_eraseKey_ne _ _ _ h1]
  · rfl

theorem containsKey_sensorChTrgBlock (m : DPMap) (k : String)
    (h1 : k ≠ "PARAM_ID_BOILER_CH_TRG_TEMP") :
    containsKey (sensorChTrgBlock m).2 k = containsKey m k := by
  unfold sensorChTrgBlock
  split
  · simp only [popD]
    rw [containsKey_eraseKey_ne _ _ _ h1]
  · rfl

theorem containsKey_get_sensors_data (m : DPMap) (k : String)
    (h1 : k ≠ "PARAM_ID_BOILER_CH_TRG_TEMP")
    (h2 : sensorLoopClaims k = false) :
    containsKey (get_sensors_data m).2 k = containsKey m k := by
  unfold get_sensors_data
  dsimp only
  rw [containsKey_filterKey _ (fun x => !(sensorLoopClaims x)), h2,
      containsKey_sensorChTrgBlock _ _ h1]
  simp

theorem containsKey_get_binary_sensors_data (m : DPMap) (k : String)
    (h1 : binaryLoopClaims k = false) :
    containsKey (get_binary_sensors_data m).2 k = containsKey m k := by
  unfold get_binary_sensors_data
  dsimp only
  rw [containsKey_filterKey _ (fun x => !(binaryLoopClaims x)), h1]
  simp

/-- The two hard-pruned keys match no capability-group rule: all seven
passes leave their presence in the working map unchanged. -/
theorem containsKey_mapAfterBinary_hardKey (m : DPMap) (k : String)
    (hk : k = "PARAM_ID_SYS_DEVICE_MODULE" ∨ k = "PARAM_ID_TH_DELETE_TH_ADDR") :
    containsKey (mapAfterBinary m) k = containsKey m k := by
  unfold mapAfterBinary mapAfterSensors mapAfterNumbers mapAfterSwitches
    mapAfterSelect mapAfterClimate mapAfterWH
  rcases hk with h | h <;> subst h <;>
    rw [containsKey_get_binary_sensors_data _ _ (by decide),
        containsKey_get_sensors_data _ _ (by decide) (by decide),
        containsKey_get_numbers_data _ _ (by decide),
        containsKey_get_switches_data _ _ (by decide) (by decide),
        containsKey_get_select_data _ _ (by decide),
        containsKey_get_climate_data _ _ (by decide) (by decide) (by decide),
        containsKey_get_water_heaters _ _ (by decide) (by decide) (by decide)
          (by decide) (by decide) (by decide) (by decide) (by decide)]

/-! ### Partition machinery -/

theorem parse_ok_spec (m : DPMap) (p : ParsedDevice)
    (h : parse_data_points m = Except.ok p) :
    containsKey (mapAfterBinary m) "PARAM_ID_SYS_DEVICE_MODULE" = true ∧
    containsKey (eraseKey (mapAfterBinary m) "PARAM_ID_SYS_DEVICE_MODULE")
      "PARAM_ID_TH_DELETE_TH_ADDR" = true ∧
    p.unknown_points =
      (eraseKey (eraseKey (mapAfterBinary m) "PARAM_ID_SYS_DEVICE_MODULE")
        "PARAM_ID_TH_DELETE_TH_ADDR").filter (fun q => !(isDroppedName q.1)) := by
  unfold parse_data_points remove_unsupported_data at h
  split at h
  next residual hmatch =>
    split at hmatch
    next hcont1 =>
      dsimp only at hmatch
      split at hmatch
      next hcont2 =>
        refine ⟨hcont1, hcont2, ?_⟩
        simp only [Except.ok.injEq] at hmatch h
        rw [← h, ← hmatch]
      next => simp at hmatch
    next => simp at hmatch
  next e hmatch => simp at h

theorem mem_removedKeys (a b : List String) (k : String) :
    k ∈ removedKeys a b ↔ k ∈ a ∧ ¬ k ∈ b := by
  simp [removedKeys]

theorem partition_step {a b j : List String} (hsub : List.Sublist b a)
    (hnd : a.Nodup) (hjm : ∀ k, k ∈ j ↔ k ∈ b) (hjn : j.Nodup) :
    (∀ k, k ∈ removedKeys a b ++ j ↔ k ∈ a) ∧ (removedKeys a b ++ j).Nodup := by
  constructor
  · intro k
    rw [List.mem_append, mem_removedKeys, hjm]
    constructor
    · rintro (⟨h, _⟩ | h)
      · exact h
      · exact hsub.subset h
    · intro h
      by_cases hb : k ∈ b
      · exact Or.inr hb
      · exact Or.inl ⟨h, hb⟩
  · rw [List.nodup_append]
    refine ⟨hnd.filter _, hjn, ?_⟩
    intro k hk hkj
    rw [mem_removedKeys] at hk
    exact hk.2 ((hjm k).mp hkj)

/-- The seven passes split the key set into the seven claimed-key lists plus
the post-pass working map, with no key in two pieces. -/
theorem passes_partition (m : DPMap) (hnd : (keysOf m).Nodup) :
    (∀ k, k ∈ (claimedGroups m).flatten ++ keysOf (mapAfterBinary m) ↔ k ∈ keysOf m)
    ∧ ((claimedGroups m).flatten ++ keysOf (mapAfterBinary m)).Nodup := by
  have s1 : List.Sublist (keysOf (mapAfterWH m)) (keysOf m) := get_water_heaters_sublist m
  have s2 : List.Sublist (keysOf (mapAfterClimate m)) (keysOf (mapAfterWH m)) :=
    get_climate_data_sublist _
  have s3 : List.Sublist (keysOf (mapAfterSelect m)) (keysOf (mapAfterClimate m)) :=
    get_select_data_sublist _
  have s4 : List.Sublist (keysOf (mapAfterSwitches m)) (keysOf (mapAfterSelect m)) :=
    get_switches_data_sublist _
  have s5 : List.Sublist (keysOf (mapAfterNumbers m)) (keysOf (mapAfterSwitches m)) :=
    get_numbers_data_sublist _
  have s6 : List.Sublist (keysOf (mapAfterSensors m)) (keysOf (mapAfterNumbers m)) :=
    get_sensors_data_sublist _
  have s7 : List.Sublist (keysOf (mapAfterBinary m)) (keysOf (mapAfterSensors m)) :=
    get_binary_sensors_data_sublist _
  have n1 := hnd.sublist s1
  have n2 := n1.sublist s2
  have n3 := n2.sublist s3
  have n4 := n3.sublist s4
  have n5 := n4.sublist s5
  have n6 := n5.sublist s6
  have n7 := n6.sublist s7
  have st7 := partition_step s7 n6 (fun _ => Iff.rfl) n7
  have st6 := partition_step s6 n5 st7.1 st7.2
  have st5 := partition_step s5 n4 st6.1 st6.2
  have st4 := partition_step s4 n3 st5.1 st5.2
  have st3 := partition_step s3 n2 st4.1 st4.2
  have st2 := partition_step s2 n1 st3.1 st3.2
  have st1 := partition_step s1 hnd st2.1 st2.2
  have heq : (claimedGroups m).flatten ++ keysOf (mapAfterBinary m) =
      removedKeys (keysOf m) (keysOf (mapAfterWH m)) ++
        (removedKeys (keysOf (mapAfterWH m)) (keysOf (mapAfterClimate m)) ++
          (removedKeys (keysOf (mapAfterClimate m)) (keysOf (mapAfterSelect m)) ++
            (removedKeys (keysOf (mapAfterSelect m)) (keysOf (mapAfterSwitches m)) ++
              (removedKeys (keysOf (mapAfterSwitches m)) (keysOf (mapAfterNumbers m)) ++
                (removedKeys (keysOf (mapAfterNumbers m)) (keysOf (mapAfterSensors m)) ++
                  (removedKeys (keysOf (mapAfterSensors m)) (keysOf (mapAfterBinary m)) ++
                    keysOf (mapAfterBinary m))))))) := by
    simp [claimedGroups, claimedWaterHeaterKeys, claimedClimateKeys, claimedSelectKeys,
      claimedSwitchKeys, claimedNumberKeys, claimedSensorKeys, claimedBinarySensorKeys,
      List.flatten, List.append_assoc]
  rw [heq]
  exact st1

theorem mem_keysOf_iff_containsKey (m : DPMap) (k : String) :
    k ∈ keysOf m ↔ containsKey m k = true :=
  (containsKey_iff_mem_keysOf m k).symm

theorem mem_keysOf_filterKey (m : DPMap) (f : String → Bool) (k : String) :
    k ∈ keysOf (m.filter (fun kd => f kd.1)) ↔
      containsKey m k = true ∧ f k = true := by
  rw [mem_keysOf_iff_containsKey, containsKey_filterKey]
  simp

/-- Membership in the post-prune classes, for an accepted input: the pieces
removed by `remove_unsupported_data` plus the residual cover exactly the
post-pass working map. -/
theorem pruning_partition_mem (m : DPMap) (p : ParsedDevice)
    (hok : parse_data_points m = Except.ok p) (k : String) :
    k ∈ keysOf (mapAfterBinary m) ↔
      k ∈ hardPrunedKeys ∨ k ∈ prunedPrefixKeys m ∨ k ∈ keysOf p.unknown_points := by
  obtain ⟨hh1, hh2, hres⟩ := parse_ok_spec m p hok
  have hm9 : ∀ x, containsKey
      (eraseKey (eraseKey (mapAfterBinary m) "PARAM_ID_SYS_DEVICE_MODULE")
        "PARAM_ID_TH_DELETE_TH_ADDR") x =
      (containsKey (mapAfterBinary m) x &&
        !(x == "PARAM_ID_SYS_DEVICE_MODULE") && !(x == "PARAM_ID_TH_DELETE_TH_ADDR")) := by
    intro x
    rw [containsKey_eraseKey, containsKey_eraseKey]
  have hRmem : ∀ x, x ∈ keysOf p.unknown_points ↔
      (containsKey (mapAfterBinary m) x = true ∧
        x ≠ "PARAM_ID_SYS_DEVICE_MODULE" ∧ x ≠ "PARAM_ID_TH_DELETE_TH_ADDR" ∧
        isDroppedName x = false) := by
    intro x
    rw [hres, mem_keysOf_filterKey _ (fun y => !(isDroppedName y)), hm9]
    simp [and_assoc]
  have hPmem : ∀ x, x ∈ prunedPrefixKeys m ↔
      (containsKey (mapAfterBinary m) x = true ∧
        x ≠ "PARAM_ID_SYS_DEVICE_MODULE" ∧ x ≠ "PARAM_ID_TH_DELETE_TH_ADDR" ∧
        isDroppedName x = true) := by
    intro x
    unfold prunedPrefixKeys
    rw [List.mem_filter, mem_keysOf_iff_containsKey, hm9]
    simp [and_assoc]
  rw [mem_keysOf_iff_containsKey, hRmem, hPmem]
  by_cases e1 : k = "PARAM_ID_SYS_DEVICE_MODULE"
  · subst e1
    simp [hardPrunedKeys, hh1]
  · by_cases e2 : k = "PARAM_ID_TH_DELETE_TH_ADDR"
    · subst e2
      have : containsKey (mapAfterBinary m) "PARAM_ID_TH_DELETE_TH_ADDR" = true := by
        have := hh2
        rw [containsKey_eraseKey] at this
        exact (Bool.and_eq_true _ _ |>.mp this).1
      simp [hardPrunedKeys, this]
    · have hhard : ¬ k ∈ hardPrunedKeys := by
        simp [hardPrunedKeys, e1, e2]
      by_cases hd : isDroppedName k = true
      · simp [hhard, e1, e2, hd]
      · have hd2 : isDroppedName k = false := by simpa using hd
        simp [hhard, e1, e2, hd2]

/-- The post-prune classes are pairwise disjoint and each duplicate-free. -/
theorem pruning_partition_nodup (m : DPMap) (p : ParsedDevice)
    (hnd : (keysOf m).Nodup) (hok : parse_data_points m = Except.ok p) :
    (hardPrunedKeys ++ (prunedPrefixKeys m ++ keysOf p.unknown_points)).Nodup := by
  obtain ⟨hh1, hh2, hres⟩ := parse_ok_spec m p hok
  have hndA : (keysOf (mapAfterBinary m)).Nodup := hnd.sublist (mapAfterBinary_sublist m)
  have hnd9 : (keysOf (eraseKey (eraseKey (mapAfterBinary m) "PARAM_ID_SYS_DEVICE_MODULE")
      "PARAM_ID_TH_DELETE_TH_ADDR")).Nodup :=
    (hndA.sublist (keysOf_eraseKey_sublist _ _)).sublist (keysOf_eraseKey_sublist _ _)
  have hndP : (prunedPrefixKeys m).Nodup := hnd9.filter _
  have hndR : (keysOf p.unknown_points).Nodup := by
    rw [hres]
    exact hnd9.sublist (keysOf_filter_sublist _ _)
  have hPd : ∀ x ∈ prunedPrefixKeys m,
      x ≠ "PARAM_ID_SYS_DEVICE_MODULE" ∧ x ≠ "PARAM_ID_TH_DELETE_TH_ADDR" ∧
        isDroppedName x = true := by
    intro x hx
    unfold prunedPrefixKeys at hx
    rw [List.mem_filter, mem_keysOf_iff_containsKey, containsKey_eraseKey,
      containsKey_eraseKey] at hx
    refine ⟨?_, ?_, hx.2⟩
    · intro e
      subst e
      simp at hx
    · intro e
      subst e
      simp at hx
  have hRd : ∀ x ∈ keysOf p.unknown_points,
      x ≠ "PARAM_ID_SYS_DEVICE_MODULE" ∧ x ≠ "PARAM_ID_TH_DELETE_TH_ADDR" ∧
        isDroppedName x = false := by
    intro x hx
    rw [hres, mem_keysOf_filterKey _ (fun y => !(isDroppedName y)),
      containsKey_eraseKey, containsKey_eraseKey] at hx
    obtain ⟨hx1, hx2⟩ := hx
    refine ⟨?_, ?_, by simpa using hx2⟩
    · intro e
      subst e
      simp at hx1
    · intro e
      subst e
      simp at hx1
  rw [List.nodup_append]
  refine ⟨by decide, ?_, ?_⟩
  · rw [List.nodup_append]
    refine ⟨hndP, hndR, ?_⟩
    intro x hxP hxR
    exact absurd ((hRd x hxR).2.2) (by simp [(hPd x hxP).2.2])
  · intro x hxH hxrest
    have hx12 : x = "PARAM_ID_SYS_DEVICE_MODULE" ∨ x = "PARAM_ID_TH_DELETE_TH_ADDR" := by
      simpa [hardPrunedKeys] using hxH
    rcases List.mem_append.mp hxrest with hP | hR
    · rcases hx12 with e | e <;> [exact (hPd x hP).1 e; exact (hPd x hP).2.1 e]
    · rcases hx12 with e | e <;> [exact (hRd x hR).1 e; exact (hRd x hR).2.1 e]

/-! ### Firing and skipping of the water-heater blocks -/

theorem waterHeaterChBlock_fires (m : DPMap)
    (g : ch_keys.all (fun k => containsKey m k) = true) :
    (waterHeaterChBlock m).1.map WaterHeaterData.name = ["Heating Water Heater"] := by
  unfold waterHeaterChBlock
  rw [if_pos g]
  rfl

theorem waterHeaterChBlock_skips (m : DPMap)
    (g : ch_keys.all (fun k => containsKey m k) = false) :
    waterHeaterChBlock m = ([], m) := by
  unfold waterHeaterChBlock
  rw [if_neg (by simp [g])]

theorem waterHeaterDhwBlock_fires (m : DPMap)
    (g : dhw_keys.all (fun k => containsKey m k) = true) :
    (waterHeaterDhwBlock m).1.map WaterHeaterData.name = ["Sanitary Water Heater"] := by
  unfold waterHeaterDhwBlock
  rw [if_pos g]
  rfl

theorem waterHeaterDhwBlock_skips (m : DPMap)
    (g : dhw_keys.all (fun k => containsKey m k) = false) :
    waterHeaterDhwBlock m = ([], m) := by
  unfold waterHeaterDhwBlock
  rw [if_neg (by simp [g])]

/-! ## Claim theorems -/

/-- C2, amended: classification is a partition once the prefix-dropped keys
are counted as their own class. For every accepted input map with distinct
keys, every key lands in exactly one of: the seven capability groups'
claimed keys, the two hard-pruned keys, the prefix-dropped keys, or the
residual — their concatenation is duplicate-free and covers the key set. -/
theorem C2_partition_amended (m : DPMap) (p : ParsedDevice)
    (hnd : (keysOf m).Nodup) (hok : parse_data_points m = Except.ok p) :
    (∀ k, k ∈ keysOf m ↔
        k ∈ (claimedGroups m).flatten ∨ k ∈ hardPrunedKeys ∨
        k ∈ prunedPrefixKeys m ∨ k ∈ keysOf p.unknown_points)
    ∧ ((claimedGroups m).flatten ++ hardPrunedKeys ++ prunedPrefixKeys m ++
        keysOf p.unknown_points).Nodup := by
  have hp := passes_partition m hnd
  constructor
  · intro k
    rw [← hp.1 k, List.mem_append, pruning_partition_mem m p hok k]
  · have hassoc : (claimedGroups m).flatten ++ hardPrunedKeys ++ prunedPrefixKeys m ++
        keysOf p.unknown_points =
        (claimedGroups m).flatten ++ (hardPrunedKeys ++ (prunedPrefixKeys m ++
          keysOf p.unknown_points)) := by
      simp [List.append_assoc]
    rw [hassoc, List.nodup_append]
    have h2 := List.nodup_append.mp hp.2
    refine ⟨h2.1, pruning_partition_nodup m p hnd hok, ?_⟩
    intro x hxf hxrest
    apply h2.2.2 hxf
    rw [pruning_partition_mem m p hok x]
    rcases List.mem_append.mp hxrest with h | h
    · exact Or.inl h
    · rcases List.mem_append.mp h with h | h
      · exact Or.inr (Or.inl h)
      · exact Or.inr (Or.inr h)

/-- C2, counterexample to the claim as stated: on an accepted map holding a
`PARAM_ID_TH_ROOM_PROG_DAY_` key, that key is in the original key set but in
none of the three classes the claim allows (group-claimed, residual, or the
two hard-pruned keys): the prefix pruning drops it entirely. -/
theorem C2_partition_counterexample :
    (parse_data_points progDayMap).isOk = true ∧
    "PARAM_ID_TH_ROOM_PROG_DAY_1" ∈ keysOf progDayMap ∧
    ¬ "PARAM_ID_TH_ROOM_PROG_DAY_1" ∈ (claimedGroups progDayMap).flatten ∧
    ¬ "PARAM_ID_TH_ROOM_PROG_DAY_1" ∈ hardPrunedKeys ∧
    ¬ "PARAM_ID_TH_ROOM_PROG_DAY_1" ∈ residualKeys progDayMap := by
  decide

/-- C2, witness: the amended partition instantiated on a concrete accepted
map with one residual key. -/
theorem C2_partition_witness :
    (∀ k, k ∈ keysOf residualWitnessMap ↔
        k ∈ (claimedGroups residualWitnessMap).flatten ∨ k ∈ hardPrunedKeys ∨
        k ∈ prunedPrefixKeys residualWitnessMap ∨
        k ∈ keysOf residualWitnessParsed.unknown_points)
    ∧ ((claimedGroups residualWitnessMap).flatten ++ hardPrunedKeys ++
        prunedPrefixKeys residualWitnessMap ++
        keysOf residualWitnessParsed.unknown_points).Nodup :=
  C2_partition_amended residualWitnessMap residualWitnessParsed (by decide) rfl

/-- C3, counterexample to the claim as stated: on an accepted input the two
hard-pruned keys are still in the working map that the first capability pass
receives (the input itself) and even in the map left after all seven passes —
they are removed only by the final `remove_unsupported_data`, not before any
rule runs. -/
theorem C3_prune_order_counterexample :
    (parse_data_points residualWitnessMap).isOk = true ∧
    containsKey residualWitnessMap "PARAM_ID_SYS_DEVICE_MODULE" = true ∧
    containsKey (mapAfterBinary residualWitnessMap) "PARAM_ID_SYS_DEVICE_MODULE" = true ∧
    containsKey (mapAfterBinary residualWitnessMap) "PARAM_ID_TH_DELETE_TH_ADDR" = true := by
  decide

/-- C3, amended: the two hard-pruned keys are removed unconditionally, but
after all seven capability passes, by `remove_unsupported_data`; no pass
claims them (their presence survives every pass unchanged), and on accepted
inputs they never reach the residual. -/
theorem C3_prune_order_amended (m : DPMap) :
    (containsKey m "PARAM_ID_SYS_DEVICE_MODULE" = true →
      containsKey (mapAfterBinary m) "PARAM_ID_SYS_DEVICE_MODULE" = true) ∧
    (containsKey m "PARAM_ID_TH_DELETE_TH_ADDR" = true →
      containsKey (mapAfterBinary m) "PARAM_ID_TH_DELETE_TH_ADDR" = true) ∧
    (∀ p, parse_data_points m = Except.ok p →
      containsKey p.unknown_points "PARAM_ID_SYS_DEVICE_MODULE" = false ∧
      containsKey p.unknown_points "PARAM_ID_TH_DELETE_TH_ADDR" = false) := by
  refine ⟨?_, ?_, ?_⟩
  · intro h
    rw [containsKey_mapAfterBinary_hardKey m _ (Or.inl rfl)]
    exact h
  · intro h
    rw [containsKey_mapAfterBinary_hardKey m _ (Or.inr rfl)]
    exact h
  · intro p hok
    obtain ⟨_, _, hres⟩ := parse_ok_spec m p hok
    rw [hres]
    constructor <;>
      rw [containsKey_filterKey _ (fun y => !(isDroppedName y)),
        containsKey_eraseKey, containsKey_eraseKey] <;> simp

/-- C3, witness: the amended statement instantiated on a concrete accepted
map holding both hard-pruned keys. -/
theorem C3_prune_order_witness :
    containsKey (mapAfterBinary residualWitnessMap) "PARAM_ID_SYS_DEVICE_MODULE" = true ∧
    containsKey residualWitnessParsed.unknown_points "PARAM_ID_SYS_DEVICE_MODULE" = false :=
  ⟨(C3_prune_order_amended residualWitnessMap).1 (by decide),
   ((C3_prune_order_amended residualWitnessMap).2.2 residualWitnessParsed rfl).1⟩

/-- C7: when either expected hard-pruned key is absent from the input map,
classification fails loudly — `parse_data_points` returns a KeyError rather
than silently skipping the missing key. -/
theorem C7_missing_hard_key_raises (m : DPMap)
    (h : containsKey m "PARAM_ID_SYS_DEVICE_MODULE" = false ∨
         containsKey m "PARAM_ID_TH_DELETE_TH_ADDR" = false) :
    ∃ e, parse_data_points m = Except.error e := by
  have habs : ∀ k, containsKey m k = false → containsKey (mapAfterBinary m) k = false := by
    intro k hk
    by_contra hc
    have h2 : containsKey (mapAfterBinary m) k = true := by simpa using hc
    have h3 := containsKey_of_sublist (mapAfterBinary_sublist m) h2
    rw [hk] at h3
    exact absurd h3 (by simp)
  unfold parse_data_points remove_unsupported_data
  rcases h with h | h
  · rw [if_neg (by simp [habs _ h])]
    exact ⟨_, rfl⟩
  · by_cases h1 : containsKey (mapAfterBinary m) "PARAM_ID_SYS_DEVICE_MODULE" = true
    · rw [if_pos h1]
      dsimp only
      have h2 : containsKey (eraseKey (mapAfterBinary m) "PARAM_ID_SYS_DEVICE_MODULE")
          "PARAM_ID_TH_DELETE_TH_ADDR" = false := by
        rw [containsKey_eraseKey, habs _ h]
        simp
      rw [if_neg (by simp [h2])]
      exact ⟨_, rfl⟩
    · rw [if_neg h1]
      exact ⟨_, rfl⟩

/-- C7, witness: a payload missing the delete-sensor-address key makes
classification raise. -/
theorem C7_missing_hard_key_witness :
    ∃ e, parse_data_points missingDeleteAddrMap = Except.error e :=
  C7_missing_hard_key_raises missingDeleteAddrMap (Or.inr (by decide))

/-- C8: a device map holding exactly the 5 "Heating" water-heater keys and
no "Sanitary" keys yields exactly one water-heater entry, named "Heating
Water Heater"; a map holding all 9 combined keys yields exactly two. -/
theorem C8_water_heater_entries (m5 m9 : DPMap)
    (h5 : ∀ k, containsKey m5 k = true ↔ k ∈ ch_keys)
    (h9 : ∀ k, containsKey m9 k = true ↔ (k ∈ ch_keys ∨ k ∈ dhw_keys)) :
    (get_water_heaters m5).1.map WaterHeaterData.name = ["Heating Water Heater"] ∧
    (get_water_heaters m9).1.length = 2 := by
  constructor
  · have g1 : ch_keys.all (fun k => containsKey m5 k) = true := by
      rw [List.all_eq_true]
      intro k hk
      exact (h5 k).mpr hk
    have hdabs : containsKey m5 "PARAM_ID_BOILER_DHW_CUR_TEMP" = false := by
      by_contra hc
      have hc2 : containsKey m5 "PARAM_ID_BOILER_DHW_CUR_TEMP" = true := by simpa using hc
      have hmem := (h5 _).mp hc2
      revert hmem
      decide
    have hdabs2 : containsKey (waterHeaterChBlock m5).2 "PARAM_ID_BOILER_DHW_CUR_TEMP"
        = false := by
      by_contra hc
      have hc2 : containsKey (waterHeaterChBlock m5).2 "PARAM_ID_BOILER_DHW_CUR_TEMP"
          = true := by simpa using hc
      have h3 := containsKey_of_sublist (waterHeaterChBlock_sublist m5) hc2
      rw [hdabs] at h3
      exact absurd h3 (by simp)
    have g2 : dhw_keys.all (fun k => containsKey (waterHeaterChBlock m5).2 k) = false := by
      simp [dhw_keys, List.all_cons, hdabs2]
    unfold get_water_heaters
    dsimp only
    rw [waterHeaterDhwBlock_skips _ g2]
    rw [show (([], (waterHeaterChBlock m5).2) :
        List WaterHeaterData × DPMap).1 = [] from rfl, List.append_nil]
    exact waterHeaterChBlock_fires m5 g1
  · have g1 : ch_keys.all (fun k => containsKey m9 k) = true := by
      rw [List.all_eq_true]
      intro k hk
      exact (h9 k).mpr (Or.inl hk)
    have g2 : dhw_keys.all (fun k => containsKey (waterHeaterChBlock m9).2 k) = true := by
      rw [List.all_eq_true]
      intro k hk
      have hk9 : containsKey m9 k = true := (h9 k).mpr (Or.inr hk)
      have hmem : k = "PARAM_ID_BOILER_DHW_CUR_TEMP" ∨
          k = "PARAM_ID_BOILER_DHW_SET_RANGE_DOWN" ∨
          k = "PARAM_ID_BOILER_DHW_SET_RANGE_UP" ∨
          k = "PARAM_ID_BOILER_DHW_TRG_TEMP" := by
        simpa [dhw_keys] using hk
      rcases hmem with rfl | rfl | rfl | rfl <;>
        rw [containsKey_waterHeaterChBlock _ _ (by decide) (by decide) (by decide)
          (by decide)] <;> exact hk9
    have e1 : (waterHeaterChBlock m9).1.length = 1 := by
      have hmap := waterHeaterChBlock_fires m9 g1
      have hlen := congrArg List.length hmap
      simpa using hlen
    have e2 : (waterHeaterDhwBlock (waterHeaterChBlock m9).2).1.length = 1 := by
      have hmap := waterHeaterDhwBlock_fires _ g2
      have hlen := congrArg List.length hmap
      simpa using hlen
    unfold get_water_heaters
    dsimp only
    rw [List.length_append, e1, e2]

/-- C8, witness: the concrete 5-key and 9-key maps. -/
theorem C8_water_heater_witness :
    (get_water_heaters chOnlyMap).1.map WaterHeaterData.name = ["Heating Water Heater"] ∧
    (get_water_heaters chDhwMap).1.length = 2 :=
  C8_water_heater_entries chOnlyMap chDhwMap
    (fun k => containsKey_iff_mem_keysOf chOnlyMap k)
    (fun k => by
      rw [containsKey_iff_mem_keysOf,
        show keysOf chDhwMap = ch_keys ++ dhw_keys from rfl]
      exact List.mem_append)

/-- C9: whenever the CH_TRG_TEMP key is present when the sensor pass runs,
it is claimed exactly once, by the exact-match "Heating Target Temperature"
rule: the pass output is that entry followed by the loop entries computed
from the map with CH_TRG_TEMP already removed (so the `_TEMP` suffix
catch-all can never re-claim it), and the key leaves the working map. -/
theorem C9_chtrg_single_claim (m : DPMap) (dp : SmartDeviceDataPoint)
    (h : getDP m "PARAM_ID_BOILER_CH_TRG_TEMP" = some dp) :
    (get_sensors_data m).1 =
      heatingTargetEntry dp ::
        (eraseKey m "PARAM_ID_BOILER_CH_TRG_TEMP").flatMap
          (fun kd => sensorEntriesFor kd.1 kd.2) ∧
    containsKey (get_sensors_data m).2 "PARAM_ID_BOILER_CH_TRG_TEMP" = false := by
  have hc : containsKey m "PARAM_ID_BOILER_CH_TRG_TEMP" = true := by
    rw [← getDP_isSome_iff, h]
    rfl
  have hblock : sensorChTrgBlock m =
      ([heatingTargetEntry dp], eraseKey m "PARAM_ID_BOILER_CH_TRG_TEMP") := by
    unfold sensorChTrgBlock
    rw [if_pos hc]
    dsimp only [popD]
    rw [h]
    rfl
  unfold get_sensors_data
  dsimp only
  rw [hblock]
  constructor
  · rfl
  · rw [containsKey_filterKey _ (fun x => !(sensorLoopClaims x)), containsKey_eraseKey]
    simp

/-- C9, witness: a map holding only CH_TRG_TEMP. -/
theorem C9_chtrg_witness :
    (get_sensors_data chTrgOnlyMap).1 =
      heatingTargetEntry (mkDP 7 "BOILER_CH_TRG_TEMP") ::
        (eraseKey chTrgOnlyMap "PARAM_ID_BOILER_CH_TRG_TEMP").flatMap
          (fun kd => sensorEntriesFor kd.1 kd.2) ∧
    containsKey (get_sensors_data chTrgOnlyMap).2 "PARAM_ID_BOILER_CH_TRG_TEMP" = false :=
  C9_chtrg_single_claim chTrgOnlyMap _ rfl

set_option maxHeartbeats 1000000 in
/-- C10: every key with one of the two dropped prefixes is absent from the
residual of an accepted classification, and if such a key is still in the
working map when the pruning runs, no capability group had claimed it. -/
theorem C10_prefix_keys_dropped (m : DPMap) (p : ParsedDevice)
    (hok : parse_data_points m = Except.ok p) (k : String)
    (hd : isDroppedName k = true) :
    containsKey p.unknown_points k = false ∧
    (containsKey (mapAfterBinary m) k = true →
      ∀ l, l ∈ claimedGroups m → ¬ k ∈ l) := by
  constructor
  · obtain ⟨_, _, hres⟩ := parse_ok_spec m p hok
    rw [hres, containsKey_filterKey _ (fun y => !(isDroppedName y)), hd]
    simp
  · intro hrem l hl hkl
    have hmem : k ∈ keysOf (mapAfterBinary m) := (containsKey_iff_mem_keysOf _ _).mp hrem
    have u6 : List.Sublist (keysOf (mapAfterBinary m)) (keysOf (mapAfterSensors m)) :=
      get_binary_sensors_data_sublist _
    have u5 : List.Sublist (keysOf (mapAfterBinary m)) (keysOf (mapAfterNumbers m)) :=
      u6.trans (get_sensors_data_sublist _)
    have u4 : List.Sublist (keysOf (mapAfterBinary m)) (keysOf (mapAfterSwitches m)) :=
      u5.trans (get_numbers_data_sublist _)
    have u3 : List.Sublist (keysOf (mapAfterBinary m)) (keysOf (mapAfterSelect m)) :=
      u4.trans (get_switches_data_sublist _)
    have u2 : List.Sublist (keysOf (mapAfterBinary m)) (keysOf (mapAfterClimate m)) :=
      u3.trans (get_select_data_sublist _)
    have u1 : List.Sublist (keysOf (mapAfterBinary m)) (keysOf (mapAfterWH m)) :=
      u2.trans (get_climate_data_sublist _)
    simp only [claimedGroups, List.mem_cons, List.not_mem_nil, or_false] at hl
    rcases hl with rfl | rfl | rfl | rfl | rfl | rfl | rfl
    · rw [claimedWaterHeaterKeys, mem_removedKeys] at hkl
      exact hkl.2 (u1.subset hmem)
    · rw [claimedClimateKeys, mem_removedKeys] at hkl
      exact hkl.2 (u2.subset hmem)
    · rw [claimedSelectKeys, mem_removedKeys] at hkl
      exact hkl.2 (u3.subset hmem)
    · rw [claimedSwitchKeys, mem_removedKeys] at hkl
      exact hkl.2 (u4.subset hmem)
    · rw [claimedNumberKeys, mem_removedKeys] at hkl
      exact hkl.2 (u5.subset hmem)
    · rw [claimedSensorKeys, mem_removedKeys] at hkl
      exact hkl.2 (u6.subset hmem)
    · rw [claimedBinarySensorKeys, mem_removedKeys] at hkl
      exact hkl.2 hmem

/-- C10, witness: the program-day key of a concrete accepted map is dropped. -/
theorem C10_prefix_keys_witness :
    containsKey progDayParsed.unknown_points "PARAM_ID_TH_ROOM_PROG_DAY_1" = false ∧
    (containsKey (mapAfterBinary progDayMap) "PARAM_ID_TH_ROOM_PROG_DAY_1" = true →
      ∀ l, l ∈ claimedGroups progDayMap → ¬ "PARAM_ID_TH_ROOM_PROG_DAY_1" ∈ l) :=
  C10_prefix_keys_dropped progDayMap progDayParsed rfl _ (by decide)

/-- C4: the pointType-2 codec round-trips every value with exactly one
decimal digit: decoding the stored wire value of n/10 gives back n/10, in
particular within the claimed 0.1 tolerance. -/
theorem C4_type2_roundtrip (n : ℤ) :
    |get_value 2 (set_value 2 ((n : ℚ) / 10)) - (n : ℚ) / 10| ≤ 1 / 10 := by
  have h1 : ((n : ℚ) / 10) * 10 = (n : ℚ) := by
    field_simp
  have h2 : set_value 2 ((n : ℚ) / 10) = (n : ℚ) := by
    show (truncQ (((n : ℚ) / 10) * 10) : ℚ) = (n : ℚ)
    rw [h1]
    unfold truncQ
    by_cases hn : 0 ≤ (n : ℚ)
    · rw [if_pos hn, Int.floor_intCast]
    · rw [if_neg hn, Int.ceil_intCast]
  rw [h2]
  show |(n : ℚ) / 10 - (n : ℚ) / 10| ≤ 1 / 10
  simp

/-- C5, counterexample: the pointType-2 encoder does not round. At the
display value 2.46 the stored wire value is int(24.6) = 24, while
round(24.6) = 25. -/
theorem C5_round_counterexample :
    set_value 2 (123 / 50 : ℚ) ≠ ((round ((123 / 50 : ℚ) * 10) : ℤ) : ℚ) := by
  have hv : ((123 / 50 : ℚ) * 10) = 123 / 5 := by norm_num
  have hfl : ⌊(123 / 5 : ℚ)⌋ = 24 := by
    rw [Int.floor_eq_iff]; norm_num
  have hrd : round ((123 / 50 : ℚ) * 10) = 25 := by
    rw [hv, round_eq, show (123 / 5 : ℚ) + 1 / 2 = 251 / 10 by norm_num,
      Int.floor_eq_iff]
    norm_num
  have hsv : set_value 2 (123 / 50 : ℚ) = (24 : ℚ) := by
    show (truncQ ((123 / 50 : ℚ) * 10) : ℚ) = (24 : ℚ)
    unfold truncQ
    rw [hv, if_pos (by norm_num), hfl]
    norm_num
  rw [hsv, hrd]
  norm_num

/-- C5, amended: for pointType 2 the stored wire value is the truncation
toward zero of value*10 (Python int()), not its rounding: an integer e with
|e| ≤ |v*10| < |e| + 1 and the sign of v*10. -/
theorem C5_trunc_amended (v : ℚ) :
    ∃ e : ℤ, set_value 2 v = (e : ℚ) ∧ |(e : ℚ)| ≤ |v * 10| ∧
      |v * 10| < |(e : ℚ)| + 1 ∧
      (0 ≤ v * 10 → 0 ≤ e) ∧ (v * 10 ≤ 0 → e ≤ 0) := by
  refine ⟨truncQ (v * 10), rfl, ?_⟩
  unfold truncQ
  by_cases h : 0 ≤ v * 10
  · rw [if_pos h]
    have hf0 : (0 : ℤ) ≤ ⌊v * 10⌋ := Int.floor_nonneg.mpr h
    have hfc : (0 : ℚ) ≤ (⌊v * 10⌋ : ℚ) := by exact_mod_cast hf0
    refine ⟨?_, ?_, fun _ => hf0, ?_⟩
    · rw [abs_of_nonneg hfc, abs_of_nonneg h]
      exact Int.floor_le _
    · rw [abs_of_nonneg hfc, abs_of_nonneg h]
      exact Int.lt_floor_add_one _
    · intro hle
      have hz : v * 10 = 0 := le_antisymm hle h
      rw [hz]
      simp
  · rw [if_neg h]
    have hlt : v * 10 < 0 := lt_of_not_ge h
    have hc0 : ⌈v * 10⌉ ≤ 0 := Int.ceil_le.mpr (by exact_mod_cast hlt.le)
    have hcc : ((⌈v * 10⌉ : ℤ) : ℚ) ≤ 0 := by exact_mod_cast hc0
    refine ⟨?_, ?_, ?_, fun _ => hc0⟩
    · rw [abs_of_nonpos hcc, abs_of_nonpos hlt.le]
      have := Int.le_ceil (v * 10)
      linarith
    · rw [abs_of_nonpos hcc, abs_of_nonpos hlt.le]
      have := Int.ceil_lt_add_one (v * 10)
      push_cast at this ⊢
      linarith
    · intro hge
      exact absurd (lt_of_le_of_lt hge hlt) (lt_irrefl 0)

/-- C6, counterexample: fan-out does not isolate callback faults. With two
registered listeners that both raise, only the first one in iteration order
is invoked — the other registered callback never runs (whatever iteration
order the listener set yields, the argument is symmetric). -/
theorem C6_fanout_counterexample :
    ([true, true] : List Bool)[0]? = some true ∧
    invokedCallbacks [true, true] = [0] ∧
    ¬ 1 ∈ invokedCallbacks [true, true] := by
  decide

/-- C6, amended: callbacks run sequentially in iteration order; when no
callback raises all of them are invoked, and when one raises, the callbacks
up to and including the first raiser run but the exception propagates and
the callbacks after it are skipped. -/
theorem C6_fanout_amended (l : List Bool) :
    ((∀ b, b ∈ l → b = false) → invokedCallbacks l = List.range l.length) ∧
    (∀ i, l[i]? = some true → (∀ j, j < i → l[j]? = some false) →
      invokedCallbacks l = List.range (i + 1)) := by
  induction l with
  | nil =>
    constructor
    · intro _
      rfl
    · intro i hi _
      simp at hi
  | cons b rest ih =>
    constructor
    · intro hall
      have hb : b = false := hall b (List.mem_cons_self _ _)
      subst hb
      have htail := ih.1 (fun x hx => hall x (List.mem_cons_of_mem _ hx))
      unfold invokedCallbacks
      rw [if_neg (by simp), htail, List.length_cons, List.range_succ_eq_map]
    · intro i hi hprev
      cases i with
      | zero =>
        have hb : b = true := by simpa using hi
        subst hb
        rfl
      | succ n =>
        have hb : b = false := by
          have h0 := hprev 0 (Nat.succ_pos n)
          simpa using h0
        subst hb
        have htail := ih.2 n (by simpa using hi)
          (fun j hj => by simpa using hprev (j + 1) (Nat.succ_lt_succ hj))
        unfold invokedCallbacks
        rw [if_neg (by simp), htail]
        exact (List.range_succ_eq_map (n + 1)).symm

/-- C6, witness: with listeners [ok, raising], both positions are invoked
(the raiser is last). -/
theorem C6_fanout_witness :
    invokedCallbacks [false, true] = List.range 2 :=
  (C6_fanout_amended [false, true]).2 1 rfl
    (fun j hj => by
      have hj0 : j = 0 := by omega
      subst hj0
      rfl)

/-- C1: routing a cmd-98 entry whose mac matches no known device raises an
AttributeError (`dict.get` yields None and `.handle_mqtt_command` is accessed
on it) instead of being silently ignored; an unknown key inside the command
of a known device is silently skipped with no mutation. -/
theorem C1_router_unknown_mac :
    (∃ e, on_mqtt_message routerDevices "command"
        [{ cmd := 98, mac := "XX", command := [("FOO", 42)] }] = Except.error e) ∧
    on_mqtt_message routerDevices "command"
        [{ cmd := 98, mac := "AA:BB", command := [("BAR", 42)] }] =
      Except.ok routerDevices := by
  constructor
  · exact ⟨_, rfl⟩
  · rfl

end RadiantSmart
